import Mathlib

/-!
Verification of the core of the flight delay predictor.

Shallow embedding of the prediction-and-attribution pipeline of the
flight-delay web application: feature engineering and categorical encoding
(`model/delay_duration/utils.py`), the duration-model wrapper
(`model/delay_duration/model.py`), and the serving-side feature
preparation, probability heuristic and attribution post-processing
(`app.py`).

Conventions used throughout:
* Python floats are modelled as rationals (`ℚ`); the decimal literals of
  the source are exactly representable.
* Python `dict.get` with a default is modelled with `Option.getD`.
* A Python call that can raise is modelled with `Option`/`Except`; the
  `try/except` blocks of the source become total functions on the
  `Option` result.
* External libraries (xgboost, shap, the numpy random generator) are not
  part of the repository; where a source function calls into them the
  external value is taken as an explicit argument (the random jitters,
  the trained booster, the haversine distance routine which uses
  floating-point trigonometry).
-/

namespace FlightDelay

/-! ## Helpers shared by the embeddings -/

/-- `np.clip(x, lo, hi)`: values below `lo` become `lo`, above `hi` become
`hi`. -/
def clip (x lo hi : ℚ) : ℚ :=
  min (max x lo) hi

/-- Python membership test `v in l` for an optional string (`None in l` is
`False`). -/
def optElem (v : Option String) (l : List String) : Bool :=
  match v with
  | some s => decide (s ∈ l)
  | none => false

/-! ## `get_time_category` (`model/delay_duration/utils.py`, lines 37-70)

The source takes a float hour and propagates `NaN`; `NaN` has no rational
counterpart, so the embedding covers the numeric inputs, which is all the
claims quantify over. -/

/-- `get_time_category(hour)`: bucket an hour of day into
1 = early morning [5,9), 2 = morning [9,12), 3 = afternoon [12,17),
4 = evening [17,21), 5 = night (everything else). -/
def get_time_category (hour : ℚ) : ℚ :=
  if 5 ≤ hour ∧ hour < 9 then 1
  else if 9 ≤ hour ∧ hour < 12 then 2
  else if 12 ≤ hour ∧ hour < 17 then 3
  else if 17 ≤ hour ∧ hour < 21 then 4
  else 5

/-! ## The categorical encoder

`sklearn.preprocessing.LabelEncoder` (external library): `fit` stores
`classes_ = np.unique(values)`, the distinct values in ascending order,
and `transform` maps a value to its index in `classes_`, raising
`ValueError` on a value not seen at fit time.  The string order is the
usual lexicographic order on the character codes.  `app.prepare_features`
(lines 179-199) wraps each `transform` call in
`try/except (KeyError, ValueError)` with fallback code `0`. -/

/-- Lexicographic comparison of character lists by code point. -/
def charListLe : List Char → List Char → Bool
  | [], _ => true
  | _ :: _, [] => false
  | a :: as, b :: bs =>
    if a.val < b.val then true
    else if b.val < a.val then false
    else charListLe as bs

/-- Lexicographic comparison of strings by code point. -/
def strLe (a b : String) : Bool :=
  charListLe a.data b.data

/-- Insert a string into a sorted list of strings (ascending). -/
def insertStr (v : String) : List String → List String
  | [] => [v]
  | x :: xs => if strLe v x then v :: x :: xs else x :: insertStr v xs

/-- Insertion sort of a list of strings, ascending; on a duplicate-free
list this is the output order of `np.unique`. -/
def sortStrs : List String → List String
  | [] => []
  | x :: xs => insertStr x (sortStrs xs)

/-- A fitted `LabelEncoder`: the ordered `classes_` array. -/
structure LabelEncoder where
  classes : List String
deriving Repr, DecidableEq

/-- `LabelEncoder.fit(values)`: `classes_` is the sorted list of distinct
input values. -/
def LabelEncoder.fit (values : List String) : LabelEncoder :=
  ⟨sortStrs values.dedup⟩

/-- `LabelEncoder.transform([v])[0]`: the index of `v` in `classes_`;
`none` models the `ValueError` raised on a value not seen at fit time. -/
def LabelEncoder.transform (e : LabelEncoder) (v : String) : Option ℕ :=
  if v ∈ e.classes then some (e.classes.indexOf v) else none

/-- The guarded transform of `app.prepare_features`: `transform` wrapped
in `try/except (KeyError, ValueError)` with fallback `0`. -/
def transform_safe (e : LabelEncoder) (v : String) : ℕ :=
  (e.transform v).getD 0

/-- The guarded transform applied to an optional request field: a missing
value (`None`) is never among the fitted string classes, so the
`except` branch yields `0`. -/
def transform_opt_safe (e : LabelEncoder) (v : Option String) : ℕ :=
  match v with
  | some s => transform_safe e s
  | none => 0

/-! ## `temporal_train_test_split` (`model/delay_duration/utils.py`,
lines 322-365)

`split_idx = int(len(X) * (1 - test_size))`; Python `int()` truncates
toward zero, which agrees with the floor for the nonnegative products
arising from `test_size ≤ 1`.  Rows `[0, split_idx)` become train, rows
`[split_idx, n)` become test, in order, no shuffling. -/

/-- Date key `(Year, Month, DayofMonth)` of a row. -/
abbrev Date := ℕ × ℕ × ℕ

/-- Chronological order on `(year, month, day)` triples. -/
def dateLe (a b : Date) : Prop :=
  a.1 < b.1 ∨ (a.1 = b.1 ∧ (a.2.1 < b.2.1 ∨ (a.2.1 = b.2.1 ∧ a.2.2 ≤ b.2.2)))

instance : DecidableRel dateLe := fun a b => by
  unfold dateLe; infer_instance

/-- `temporal_train_test_split(X, y, df, test_size)`: chronological split
at `split_idx = int(n * (1 - test_size))`, first slice for training,
second for testing. -/
def temporal_train_test_split {α β : Type} (X : List α) (y : List β) (test_size : ℚ) :
    List α × List α × List β × List β :=
  let split_idx : ℕ := (⌊(X.length : ℚ) * (1 - test_size)⌋).toNat
  (X.take split_idx, X.drop split_idx, y.take split_idx, y.drop split_idx)

/-! ## Serving-side feature preparation (`app.py`, lines 131-210) -/

/-- An airport row of the `AIRPORTS` table: latitude and longitude. -/
structure AirportInfo where
  lat : ℚ
  lon : ℚ
deriving Repr, DecidableEq

/-- The `AIRPORTS` table of `app.py` (city/state strings omitted; only
the coordinates feed the computation). -/
def AIRPORTS : List (String × AirportInfo) :=
  [("ATL", ⟨33.6367, -84.4281⟩), ("ORD", ⟨41.9786, -87.9048⟩),
   ("DFW", ⟨32.8968, -97.038⟩), ("DEN", ⟨39.8617, -104.673⟩),
   ("LAX", ⟨33.9425, -118.408⟩), ("JFK", ⟨40.6394, -73.7793⟩),
   ("SFO", ⟨37.6198, -122.3748⟩), ("SEA", ⟨47.4479, -122.3103⟩),
   ("MIA", ⟨25.7932, -80.2906⟩), ("BOS", ⟨42.362, -71.0079⟩),
   ("PHX", ⟨33.4353, -112.0059⟩), ("IAH", ⟨29.9844, -95.3414⟩),
   ("LAS", ⟨36.0834, -115.1518⟩), ("MCO", ⟨28.4294, -81.309⟩),
   ("CLT", ⟨35.214, -80.9431⟩), ("EWR", ⟨40.6925, -74.1687⟩),
   ("MSP", ⟨44.8801, -93.2217⟩), ("DTW", ⟨42.2138, -83.3538⟩),
   ("PHL", ⟨39.8719, -75.2411⟩), ("SLC", ⟨40.7889, -111.9799⟩),
   ("LGA", ⟨40.7772, -73.8726⟩), ("BWI", ⟨39.1754, -76.6683⟩),
   ("DCA", ⟨38.8521, -77.0377⟩), ("SAN", ⟨32.7336, -117.19⟩),
   ("TPA", ⟨27.9755, -82.5332⟩)]

/-- Look an optional airport code up in `AIRPORTS` (`origin in AIRPORTS`
followed by `AIRPORTS[origin]`). -/
def lookupAirport (code : Option String) : Option AirportInfo :=
  match code with
  | some s => AIRPORTS.lookup s
  | none => none

/-- A JSON request payload as read by `prepare_features` via
`data.get(...)`: every field may be absent. -/
structure Payload where
  origin : Option String
  destination : Option String
  month : Option ℤ
  day : Option ℤ
  dayOfWeek : Option ℤ
  depHour : Option ℤ
  arrHour : Option ℤ
  airline : Option String
deriving Repr, DecidableEq

/-- The feature dictionary built by `app.prepare_features`, with the
three encoded categorical columns appended. -/
structure Features where
  Month : ℤ
  Quarter : ℤ
  DayofMonth : ℤ
  DayOfWeek : ℤ
  Distance : ℚ
  CRSElapsedTime : ℤ
  dep_hour : ℤ
  arr_hour : ℤ
  dep_time_category : ℚ
  Reporting_Airline_encoded : ℕ
  Origin_encoded : ℕ
  Dest_encoded : ℕ
deriving Repr, DecidableEq

/-- The `raw_data` context dictionary returned by `prepare_features`
alongside the feature dictionary. -/
structure RawData where
  origin : Option String
  dest : Option String
  airline : String
  distance : ℚ
  dep_hour : ℤ
  day_of_week : ℤ
  month : ℤ
  time_category : ℚ
deriving Repr, DecidableEq

/-- The loaded `label_encoders` dictionary: one fitted encoder per
categorical column. -/
structure Encoders where
  reporting_airline : LabelEncoder
  origin : LabelEncoder
  dest : LabelEncoder
deriving Repr, DecidableEq

/-- `app.prepare_features(data)`.  `calc_distance` stands for
`calculate_distance` (haversine with Earth radius 3959 mi, computed with
floating-point trigonometry by numpy); it is only invoked when both
airport codes are present in `AIRPORTS`.  `label_encoders` is the global
encoder state (`None` when the artifact file was missing). -/
def prepare_features (calc_distance : ℚ → ℚ → ℚ → ℚ → ℚ)
    (label_encoders : Option Encoders) (data : Payload) : Features × RawData :=
  let origin := data.origin
  let dest := data.destination
  let month := data.month.getD 6
  let day_of_month := data.day.getD 15
  let day_of_week := data.dayOfWeek.getD 3
  let dep_hour := data.depHour.getD 14
  let arr_hour := data.arrHour.getD 17
  let airline := data.airline.getD ("AA")
  let distance : ℚ :=
    match lookupAirport origin, lookupAirport dest with
    | some o, some d => calc_distance o.lat o.lon d.lat d.lon
    | _, _ => 1000
  let elapsed0 := (arr_hour - dep_hour) * 60
  let elapsed1 := if elapsed0 < 0 then elapsed0 + 24 * 60 else elapsed0
  let elapsed_time := max elapsed1 60
  let time_category := get_time_category dep_hour
  let quarter := (month - 1).fdiv 3 + 1
  let airline_encoded :=
    match label_encoders with
    | some enc => transform_safe enc.reporting_airline airline
    | none => 0
  let origin_encoded :=
    match label_encoders with
    | some enc => transform_opt_safe enc.origin origin
    | none => 0
  let dest_encoded :=
    match label_encoders with
    | some enc => transform_opt_safe enc.dest dest
    | none => 0
  (⟨month, quarter, day_of_month, day_of_week, distance, elapsed_time,
    dep_hour, arr_hour, time_category,
    airline_encoded, origin_encoded, dest_encoded⟩,
   ⟨origin, dest, airline, distance, dep_hour, day_of_week, month,
    time_category⟩)

/-! ## `simulate_probability` (`app.py`, lines 213-274)

`np.random.uniform(-0.04, 0.04)` is passed in as the explicit `jitter`
argument. -/

/-- The hub airport list of `simulate_probability`. -/
def hub_airports : List String :=
  ["ATL", "ORD", "DFW", "DEN", "LAX", "JFK", "SFO", "EWR", "LGA", "PHL"]

/-- The congested ("problematic") airport list of `simulate_probability`. -/
def problematic : List String :=
  ["EWR", "LGA", "JFK", "SFO", "ORD"]

/-- The `day_effects` table (`dict.get` default 0). -/
def day_effects (d : ℤ) : ℚ :=
  if d = 1 then -0.02 else if d = 2 then -0.03 else if d = 3 then -0.02
  else if d = 4 then 0.01 else if d = 5 then 0.06 else if d = 6 then 0.03
  else if d = 7 then 0.05 else 0

/-- The `airline_factors` table (`dict.get` default 0). -/
def airline_factors (a : String) : ℚ :=
  if a = "AA" then 0.02 else if a = "DL" then -0.05 else if a = "UA" then 0.03
  else if a = "WN" then 0.01 else if a = "B6" then 0.04
  else if a = "AS" then -0.04 else if a = "NK" then 0.12
  else if a = "F9" then 0.10 else 0

/-- `simulate_probability(raw_data)` with the random draw made explicit:
base rate 0.22 plus the documented time-of-day, day-of-week, month,
distance, hub/congested-airport and airline deltas, plus the jitter,
clipped into `[0.05, 0.85]`. -/
def simulate_probability (raw_data : RawData) (jitter : ℚ) : ℚ :=
  let base_prob : ℚ := 0.22
  let dep_hour := raw_data.dep_hour
  let base_prob :=
    if 16 ≤ dep_hour ∧ dep_hour ≤ 20 then base_prob + 0.12
    else if 6 ≤ dep_hour ∧ dep_hour ≤ 9 then base_prob + 0.04
    else if dep_hour < 6 then base_prob - 0.06
    else base_prob
  let base_prob := base_prob + day_effects raw_data.day_of_week
  let month := raw_data.month
  let base_prob :=
    if month = 6 ∨ month = 7 ∨ month = 8 then base_prob + 0.08
    else if month = 12 then base_prob + 0.08
    else if month = 9 ∨ month = 10 then base_prob - 0.04
    else base_prob
  let distance := raw_data.distance
  let base_prob :=
    if 2000 < distance then base_prob + 0.06
    else if 1000 < distance then base_prob + 0.03
    else if distance < 500 then base_prob - 0.02
    else base_prob
  let base_prob := if optElem raw_data.origin hub_airports then base_prob + 0.05 else base_prob
  let base_prob := if optElem raw_data.dest hub_airports then base_prob + 0.04 else base_prob
  let base_prob := if optElem raw_data.origin problematic then base_prob + 0.06 else base_prob
  let base_prob := if optElem raw_data.dest problematic then base_prob + 0.05 else base_prob
  let base_prob := base_prob + airline_factors raw_data.airline
  let base_prob := base_prob + jitter
  clip base_prob 0.05 0.85

/-! ## `DelayDurationModel` (`model/delay_duration/model.py`)

The xgboost regressor is external; a trained booster is modelled as an
opaque prediction function.  `save_model`/`load_model` round-trip the
booster state through a JSON artifact, so the persisted artifact is the
booster itself. -/

/-- A trained xgboost booster: its prediction function on a batch of
feature rows. -/
structure Booster where
  predictFun : List (List ℚ) → List ℚ

/-- The `DelayDurationModel` wrapper: hyperparameters, the optional
underlying booster, the ordered feature-name list captured by `fit`, and
the fitted flag. -/
structure DelayDurationModel where
  params : List (String × ℚ)
  model : Option Booster
  feature_names : Option (List String)
  is_fitted : Bool

/-- `DelayDurationModel.__init__(params)`: no booster, no feature names,
not fitted. -/
def DelayDurationModel.init (params : List (String × ℚ)) : DelayDurationModel :=
  { params := params, model := none, feature_names := none, is_fitted := false }

/-- `DelayDurationModel.fit(X_train, ...)` with the external xgboost
training abstracted as the resulting booster: stores the booster, records
the training column list in `feature_names`, and sets `is_fitted`. -/
def DelayDurationModel.fit (m : DelayDurationModel) (trained : Booster)
    (columns : List String) : DelayDurationModel :=
  { m with model := some trained, feature_names := some columns, is_fitted := true }

/-- `DelayDurationModel.predict(X)`: `ValueError` (`Except.error`) when
not fitted, otherwise the predictions of the booster. -/
def DelayDurationModel.predict (m : DelayDurationModel) (X : List (List ℚ)) :
    Except String (List ℚ) :=
  if m.is_fitted then
    match m.model with
    | some b => .ok (b.predictFun X)
    | none => .error ("no underlying model")
  else .error ("Model must be fitted before making predictions")

/-- `DelayDurationModel.save(model_path)`: `ValueError` when not fitted,
otherwise writes the booster state (the artifact returned here). -/
def DelayDurationModel.save (m : DelayDurationModel) : Except String Booster :=
  if m.is_fitted then
    match m.model with
    | some b => .ok b
    | none => .error ("no underlying model")
  else .error ("Model must be fitted before saving")

/-- `DelayDurationModel.load(model_path)`: installs the booster of the
artifact into `self.model` and sets `is_fitted := true`.  The source does
not assign `self.feature_names`, so that field keeps whatever value the
receiver already had. -/
def DelayDurationModel.load (m : DelayDurationModel) (artifact : Booster) :
    DelayDurationModel :=
  { m with model := some artifact, is_fitted := true }

/-! ## Attribution post-processing (`app.py`, lines 277-306)

`generate_shap_values` builds a record list either from the external SHAP
explainer (model-derived strategy) or from `generate_simulated_shap`
(rule-based strategy), then sorts it by descending absolute contribution
(the stable Python `list.sort` with `key=abs(shap)`, `reverse=True`) and
keeps the first 8 entries.  The list built by the strategy is taken as the argument;
the sort-and-cap tail is common to both strategies. -/

/-- One attribution record: feature key, display name, formatted value,
signed contribution. -/
structure AttributionRecord where
  feature : String
  displayName : String
  value : String
  shap : ℚ

/-- The sort key of `generate_shap_values`: descending absolute
contribution. -/
def shapAbsGe (a b : AttributionRecord) : Bool :=
  decide (|b.shap| ≤ |a.shap|)

/-- The common tail of `generate_shap_values`, applied to the record list
produced by whichever strategy ran: stable sort by descending `|shap|`,
then the first 8 entries. -/
def generate_shap_values (records : List AttributionRecord) : List AttributionRecord :=
  (records.mergeSort shapAbsGe).take 8

/-! ## The `/api/predict` branch (`app.py`, lines 491-502 and 518-527) -/

/-- The prediction branch of the `predict` route: when a fitted model is
present its regression output is the duration, otherwise the duration is
synthesized from the heuristic probability
(`15 + probability*60 + uniform(0, 20)` if the probability exceeds 0.25,
else 0).  Returns `(probability, duration_prediction, modelUsed)`; the
`modelUsed` response flag is `model is not None and model.is_fitted`.
`prob_jitter` and `dur_jitter` are the two `np.random.uniform` draws. -/
def serve_predict (model : Option DelayDurationModel) (X : List (List ℚ))
    (raw_data : RawData) (prob_jitter dur_jitter : ℚ) : ℚ × ℚ × Bool :=
  let modelUsed := match model with
    | some m => m.is_fitted
    | none => false
  if modelUsed then
    let duration := match model with
      | some m =>
        match m.predict X with
        | .ok ds => ds.headD 0
        | .error _ => 0
      | none => 0
    let probability := simulate_probability raw_data prob_jitter
    (probability, duration, modelUsed)
  else
    let probability := simulate_probability raw_data prob_jitter
    let duration :=
      if 0.25 < probability then 15 + probability * 60 + dur_jitter else 0
    (probability, duration, modelUsed)

/-! ## Helper lemmas -/

/-- Membership in an insertion-sorted list. -/
theorem mem_insertStr {a v : String} {l : List String} :
    a ∈ insertStr v l ↔ a = v ∨ a ∈ l := by
  induction l with
  | nil => simp [insertStr]
  | cons x xs ih =>
    simp only [insertStr]
    cases hsl : strLe v x with
    | true => simp [List.mem_cons]
    | false =>
      simp only [Bool.false_eq_true, if_false, List.mem_cons, ih]
      tauto

/-- `sortStrs` preserves membership. -/
theorem mem_sortStrs {a : String} {l : List String} :
    a ∈ sortStrs l ↔ a ∈ l := by
  induction l with
  | nil => simp [sortStrs]
  | cons x xs ih => simp [sortStrs, mem_insertStr, ih]

/-- A value is among the classes of a fitted encoder iff it occurred in the
fit input. -/
theorem mem_fit_classes {v : String} {values : List String} :
    v ∈ (LabelEncoder.fit values).classes ↔ v ∈ values := by
  simp [LabelEncoder.fit, mem_sortStrs, List.mem_dedup]

/-! ## Claim theorems -/

/-- C1: on a fitted categorical encoder, the guarded transform of the
serving path returns the integer code assigned at fit time (the index of the value
 in the fitted `classes_` array) for a value seen at fit time, and
the fallback sentinel `0` for a value not seen at fit time; the raw
`transform` raises (`none`) exactly on unseen values and the guarded path
is a total function, so serving never raises. -/
theorem encoder_transform_spec (values : List String) (v : String) :
    (v ∈ values →
      (LabelEncoder.fit values).transform v =
        some ((LabelEncoder.fit values).classes.indexOf v) ∧
      transform_safe (LabelEncoder.fit values) v =
        (LabelEncoder.fit values).classes.indexOf v) ∧
    (v ∉ values →
      (LabelEncoder.fit values).transform v = none ∧
      transform_safe (LabelEncoder.fit values) v = 0) := by
  constructor
  · intro hv
    have h := mem_fit_classes.mpr hv
    simp [LabelEncoder.transform, transform_safe, h]
  · intro hv
    have h : v ∉ (LabelEncoder.fit values).classes := fun hc =>
      hv (mem_fit_classes.mp hc)
    simp [LabelEncoder.transform, transform_safe, h]

/-- C1 witness: the airline encoder fitted on `["DL", "UA", "AA"]` maps
the seen value `"UA"` to its fit-time code and the unseen value `"ZZ"`
to `0`. -/
theorem encoder_transform_spec_witness :
    ("UA" ∈ ["DL", "UA", "AA"] ∧
      transform_safe (LabelEncoder.fit ["DL", "UA", "AA"]) "UA" =
        (LabelEncoder.fit ["DL", "UA", "AA"]).classes.indexOf ("UA")) ∧
    ("ZZ" ∉ ["DL", "UA", "AA"] ∧
      transform_safe (LabelEncoder.fit ["DL", "UA", "AA"]) "ZZ" = 0) :=
  ⟨⟨by decide, ((encoder_transform_spec ["DL", "UA", "AA"] "UA").1 (by decide)).2⟩,
   ⟨by decide, ((encoder_transform_spec ["DL", "UA", "AA"] "ZZ").2 (by decide)).2⟩⟩

/-- C6: for every integer hour in `[0, 24)` the time-of-day category is
in `{1,2,3,4,5}`, following the half-open buckets `[5,9) ↦ 1`,
`[9,12) ↦ 2`, `[12,17) ↦ 3`, `[17,21) ↦ 4` and everything else `↦ 5`;
in particular the boundary hours 5, 9, 12, 17, 21 and 4 map to
1, 2, 3, 4, 5 and 5. -/
theorem get_time_category_spec (n : ℕ) (hn : n < 24) :
    get_time_category n ∈ ({1, 2, 3, 4, 5} : Set ℚ) ∧
    (5 ≤ n ∧ n < 9 → get_time_category n = 1) ∧
    (9 ≤ n ∧ n < 12 → get_time_category n = 2) ∧
    (12 ≤ n ∧ n < 17 → get_time_category n = 3) ∧
    (17 ≤ n ∧ n < 21 → get_time_category n = 4) ∧
    (¬(5 ≤ n ∧ n < 21) → get_time_category n = 5) ∧
    get_time_category 5 = 1 ∧ get_time_category 9 = 2 ∧
    get_time_category 12 = 3 ∧ get_time_category 17 = 4 ∧
    get_time_category 21 = 5 ∧ get_time_category 4 = 5 := by
  interval_cases n <;>
    norm_num [get_time_category, Set.mem_insert_iff, Set.mem_singleton_iff]

/-- C6 witness: hour 8 is within range and falls in the early-morning
bucket. -/
theorem get_time_category_spec_witness :
    get_time_category 8 ∈ ({1, 2, 3, 4, 5} : Set ℚ) ∧ get_time_category (8 : ℕ) = 1 :=
  ⟨(get_time_category_spec 8 (by decide)).1,
   (get_time_category_spec 8 (by decide)).2.1 (by decide)⟩

/-- C3: for every input to the probability heuristic and any jitter in
`[-0.04, 0.04]`, the returned probability lies in `[0.05, 0.85]` (the
final `np.clip` enforces the bounds). -/
theorem simulate_probability_bounds (raw_data : RawData) (j : ℚ)
    (h1 : -0.04 ≤ j) (h2 : j ≤ 0.04) :
    0.05 ≤ simulate_probability raw_data j ∧
      simulate_probability raw_data j ≤ 0.85 := by
  simp only [simulate_probability, clip]
  exact ⟨le_min (le_max_right _ _) (by norm_num), min_le_right _ _⟩

/-- C3 witness: a concrete extreme input (distance 99999 miles in
December out of a congested hub) with jitter 0.04 stays within the
bounds. -/
theorem simulate_probability_bounds_witness :
    0.05 ≤ simulate_probability ⟨some ("EWR"), some ("ORD"), "NK", 99999, 18, 5, 12, 4⟩ 0.04 ∧
      simulate_probability ⟨some ("EWR"), some ("ORD"), "NK", 99999, 18, 5, 12, 4⟩ 0.04 ≤ 0.85 :=
  simulate_probability_bounds _ 0.04 (by norm_num) (by norm_num)

/-- C9: the attribution post-processing common to the model-derived and
the simulated strategy returns at most 8 records, ordered so that the
absolute contributions are non-increasing from the first record to the
last, whatever record list the active strategy produced. -/
theorem generate_shap_values_spec (records : List AttributionRecord) :
    (generate_shap_values records).length ≤ 8 ∧
    (generate_shap_values records).Pairwise
      (fun a b => |b.shap| ≤ |a.shap|) := by
  constructor
  · exact List.length_take_le _ _
  · have htrans : ∀ a b c : AttributionRecord, shapAbsGe a b = true →
        shapAbsGe b c = true → shapAbsGe a c = true := by
      intro a b c hab hbc
      simp only [shapAbsGe, decide_eq_true_eq] at hab hbc ⊢
      exact le_trans hbc hab
    have htot : ∀ a b : AttributionRecord,
        (shapAbsGe a b || shapAbsGe b a) = true := by
      intro a b
      simp only [shapAbsGe, Bool.or_eq_true, decide_eq_true_eq]
      exact le_total _ _
    have h := List.sorted_mergeSort htrans htot records
    exact List.Pairwise.sublist (List.take_sublist _ _)
      (h.imp (fun hab => by simpa [shapAbsGe, decide_eq_true_eq] using hab))

/-- C2: for rows and targets of common length `n` and any test fraction
in `(0,1)`, the temporal split takes rows `[0, splitIndex)` as train and
`[splitIndex, n)` as test with `splitIndex = ⌊n * (1 - testFraction)⌋`,
without reordering: the slice lengths add up to `n`, the test slice has
`n - splitIndex` rows, and when the input is sorted ascending by
`(year, month, day)` every train date is `≤` every test date. -/
theorem temporal_split_spec {β : Type} (X : List Date) (y : List β) (f : ℚ)
    (h0 : 0 < f) (h1 : f < 1) (hy : y.length = X.length)
    (hs : X.Pairwise dateLe) :
    (temporal_train_test_split X y f).1 =
      X.take (⌊(X.length : ℚ) * (1 - f)⌋).toNat ∧
    (temporal_train_test_split X y f).2.1 =
      X.drop (⌊(X.length : ℚ) * (1 - f)⌋).toNat ∧
    (temporal_train_test_split X y f).1.length +
      (temporal_train_test_split X y f).2.1.length = X.length ∧
    (temporal_train_test_split X y f).2.1.length =
      X.length - (⌊(X.length : ℚ) * (1 - f)⌋).toNat ∧
    (temporal_train_test_split X y f).2.2.1.length +
      (temporal_train_test_split X y f).2.2.2.length = X.length ∧
    ∀ a ∈ (temporal_train_test_split X y f).1,
      ∀ b ∈ (temporal_train_test_split X y f).2.1, dateLe a b := by
  have h2 : (X.length : ℚ) * (1 - f) ≤ (X.length : ℚ) := by
    nlinarith [Nat.cast_nonneg (α := ℚ) X.length]
  have h3 : ⌊(X.length : ℚ) * (1 - f)⌋ ≤ (X.length : ℤ) :=
    calc ⌊(X.length : ℚ) * (1 - f)⌋ ≤ ⌊(X.length : ℚ)⌋ := Int.floor_le_floor h2
      _ = (X.length : ℤ) := Int.floor_natCast _
  have hle : (⌊(X.length : ℚ) * (1 - f)⌋).toNat ≤ X.length := by omega
  refine ⟨rfl, rfl, ?_, ?_, ?_, ?_⟩
  · simp only [temporal_train_test_split, List.length_take, List.length_drop]
    omega
  · simp only [temporal_train_test_split, List.length_drop]
  · simp only [temporal_train_test_split, List.length_take, List.length_drop]
    omega
  · intro a ha b hb
    have hsplit : X.take (⌊(X.length : ℚ) * (1 - f)⌋).toNat ++
        X.drop (⌊(X.length : ℚ) * (1 - f)⌋).toNat = X :=
      List.take_append_drop _ _
    have hp : List.Pairwise dateLe
        (X.take (⌊(X.length : ℚ) * (1 - f)⌋).toNat ++
          X.drop (⌊(X.length : ℚ) * (1 - f)⌋).toNat) := by
      rw [hsplit]; exact hs
    exact (List.pairwise_append.mp hp).2.2 a ha b hb

/-- C2 witness: five chronologically sorted rows with test fraction 2/5
split 3 + 2. -/
theorem temporal_split_spec_witness :
    (0 : ℚ) < 2/5 ∧ (2/5 : ℚ) < 1 ∧
    ([(10 : ℕ), 20, 30, 40, 50].length =
      [((2002 : ℕ), (1 : ℕ), (5 : ℕ)), (2002, 3, 1), (2003, 1, 1),
        (2004, 7, 15), (2005, 2, 2)].length) ∧
    List.Pairwise dateLe
      [((2002 : ℕ), (1 : ℕ), (5 : ℕ)), (2002, 3, 1), (2003, 1, 1),
        (2004, 7, 15), (2005, 2, 2)] ∧
    ((temporal_train_test_split
        [((2002 : ℕ), (1 : ℕ), (5 : ℕ)), (2002, 3, 1), (2003, 1, 1),
          (2004, 7, 15), (2005, 2, 2)] [(10 : ℕ), 20, 30, 40, 50]
        (2/5)).1.length +
      (temporal_train_test_split
        [((2002 : ℕ), (1 : ℕ), (5 : ℕ)), (2002, 3, 1), (2003, 1, 1),
          (2004, 7, 15), (2005, 2, 2)] [(10 : ℕ), 20, 30, 40, 50]
        (2/5)).2.1.length =
      [((2002 : ℕ), (1 : ℕ), (5 : ℕ)), (2002, 3, 1), (2003, 1, 1),
        (2004, 7, 15), (2005, 2, 2)].length) :=
  ⟨by norm_num, by norm_num, by decide, by decide,
    (temporal_split_spec
      [((2002 : ℕ), (1 : ℕ), (5 : ℕ)), (2002, 3, 1), (2003, 1, 1),
        (2004, 7, 15), (2005, 2, 2)] [(10 : ℕ), 20, 30, 40, 50]
      (2/5) (by norm_num) (by norm_num) (by decide) (by decide)).2.2.1⟩

/-- C8: when no trained regressor is usable (model absent or not
fitted), the served duration is synthesized from the heuristic
probability as `15 + probability*60 + jitter` when the probability
exceeds 0.25 and `0` otherwise, and the model-used flag of the response is
`false`. -/
theorem serve_predict_fallback (model : Option DelayDurationModel)
    (X : List (List ℚ)) (raw_data : RawData) (pj dj : ℚ)
    (h : ∀ m, model = some m → m.is_fitted = false) :
    serve_predict model X raw_data pj dj =
      (simulate_probability raw_data pj,
        (if 0.25 < simulate_probability raw_data pj then
          15 + simulate_probability raw_data pj * 60 + dj else 0),
        false) := by
  cases model with
  | none => simp [serve_predict]
  | some m =>
    have hm : m.is_fitted = false := h m rfl
    simp [serve_predict, hm]

/-- C8 witness: with no model loaded, a concrete request is served from
the heuristic with the synthesized duration and `modelUsed = false`. -/
theorem serve_predict_fallback_witness :
    serve_predict none [] ⟨some ("ATL"), some ("ORD"), "DL", 1500, 18, 5, 7, 4⟩ 0 10 =
      (simulate_probability ⟨some ("ATL"), some ("ORD"), "DL", 1500, 18, 5, 7, 4⟩ 0,
        (if 0.25 < simulate_probability ⟨some ("ATL"), some ("ORD"), "DL", 1500, 18, 5, 7, 4⟩ 0 then
          15 + simulate_probability ⟨some ("ATL"), some ("ORD"), "DL", 1500, 18, 5, 7, 4⟩ 0 * 60 + 10
        else 0),
        false) :=
  serve_predict_fallback none [] _ 0 10 (fun m hm => Option.noConfusion hm)

/-! ## Scenario 1 of the spec (claim C5) -/

/-- The `raw_data` context of Scenario 1: departure hour 18, Friday (5),
July (7), distance 1500 mi, ATL → ORD, airline DL (time category of hour
18 is 4). -/
def scenario1 : RawData :=
  ⟨some ("ATL"), some ("ORD"), "DL", 1500, 18, 5, 7, 4⟩

/-- On Scenario 1 the pre-clip sum of the heuristic is `0.60 + jitter`:
0.22 base + 0.12 evening + 0.06 Friday + 0.08 summer + 0.03 distance
band + 0.05 origin hub + 0.04 destination hub + 0.05 destination
congested − 0.05 DL bias. -/
theorem simulate_probability_scenario1_eq (j : ℚ) :
    simulate_probability scenario1 j = clip (0.60 + j) 0.05 0.85 := by
  have e1 : optElem (some ("ATL")) hub_airports = true := by decide
  have e2 : optElem (some ("ORD")) hub_airports = true := by decide
  have e3 : optElem (some ("ATL")) problematic = false := by decide
  have e4 : optElem (some ("ORD")) problematic = true := by decide
  simp only [simulate_probability, scenario1, day_effects, airline_factors,
    e1, e2, e3, e4, if_true, Bool.false_eq_true, if_false]
  rw [if_neg (show ¬("DL" : String) = "AA" by decide)]
  norm_num

/-- C5 counterexample: on Scenario 1 with jitter 0 the heuristic returns
0.60, not the 0.61 the claim computes — the destination-congested delta
in the code is 0.05, not 0.06. -/
theorem simulate_probability_scenario1_counterexample :
    simulate_probability scenario1 0 = 0.60 ∧
    simulate_probability scenario1 0 ≠ 0.61 := by
  have h := simulate_probability_scenario1_eq 0
  rw [h]
  norm_num [clip]

/-- C5 (amended): on Scenario 1 the pre-jitter sum is 0.60 (the
destination-congested delta is 0.05), and for any jitter in
`[-0.04, 0.04]` the returned value is the clamp of `0.60 + jitter` into
`[0.05, 0.85]`, which is `0.60 + jitter` itself. -/
theorem simulate_probability_scenario1_amended (j : ℚ)
    (h1 : -0.04 ≤ j) (h2 : j ≤ 0.04) :
    simulate_probability scenario1 j = clip (0.60 + j) 0.05 0.85 ∧
    simulate_probability scenario1 j = 0.60 + j := by
  refine ⟨simulate_probability_scenario1_eq j, ?_⟩
  rw [simulate_probability_scenario1_eq j, clip,
    max_eq_left (by linarith), min_eq_left (by linarith)]

/-- C5 witness: Scenario 1 with jitter 0.02 yields 0.62. -/
theorem simulate_probability_scenario1_amended_witness :
    simulate_probability scenario1 0.02 = clip (0.60 + 0.02) 0.05 0.85 ∧
    simulate_probability scenario1 0.02 = 0.60 + 0.02 :=
  simulate_probability_scenario1_amended 0.02 (by norm_num) (by norm_num)

/-! ## The save/load round trip (claim C4) -/

/-- A concrete trained booster. -/
def booster_demo : Booster :=
  ⟨fun X => X.map fun _ => 42⟩

/-- The canonical feature column list (`config.FEATURE_COLUMNS`). -/
def FEATURE_COLUMNS : List String :=
  ["Month", "Quarter", "DayofMonth", "DayOfWeek",
   "Reporting_Airline_encoded", "Origin_encoded", "Dest_encoded",
   "Distance", "CRSElapsedTime", "dep_hour", "arr_hour",
   "dep_time_category"]

/-- A concrete fitted model: fresh model fitted with `booster_demo` on
the canonical feature columns. -/
def fitted_demo : DelayDurationModel :=
  (DelayDurationModel.init [("max_depth", 8)]).fit booster_demo FEATURE_COLUMNS

/-- C4 counterexample: saving `fitted_demo` and loading the artifact into
a fresh model restores the booster and the fitted flag, but the loaded
feature-name list of the loaded model is `None`, not the list of the original — `load`
never assigns `feature_names`. -/
theorem model_roundtrip_counterexample :
    fitted_demo.save = Except.ok booster_demo ∧
    ((DelayDurationModel.init [("max_depth", 8)]).load booster_demo).is_fitted = true ∧
    ((DelayDurationModel.init [("max_depth", 8)]).load booster_demo).feature_names = none ∧
    fitted_demo.feature_names = some FEATURE_COLUMNS ∧
    ((DelayDurationModel.init [("max_depth", 8)]).load booster_demo).feature_names ≠
      fitted_demo.feature_names := by
  refine ⟨rfl, rfl, rfl, rfl, ?_⟩
  simp [DelayDurationModel.load, DelayDurationModel.init, fitted_demo,
    DelayDurationModel.fit]

/-- C4 (amended): for every fitted model, `save` succeeds with the
booster artifact, and loading that artifact into a fresh model yields
identical `predict` outputs on every input and a true fitted flag; the
feature-name list is NOT restored — it stays `None` on the fresh
model. -/
theorem model_roundtrip_amended (m : DelayDurationModel) (b : Booster)
    (params : List (String × ℚ))
    (hf : m.is_fitted = true) (hb : m.model = some b) :
    m.save = Except.ok b ∧
    (∀ X, ((DelayDurationModel.init params).load b).predict X = m.predict X) ∧
    ((DelayDurationModel.init params).load b).is_fitted = true ∧
    ((DelayDurationModel.init params).load b).feature_names = none := by
  refine ⟨?_, ?_, rfl, rfl⟩
  · simp [DelayDurationModel.save, hf, hb]
  · intro X
    simp [DelayDurationModel.predict, DelayDurationModel.load,
      DelayDurationModel.init, hf, hb]

/-- C4 witness: the round trip on the concrete fitted model. -/
theorem model_roundtrip_amended_witness :
    fitted_demo.save = Except.ok booster_demo ∧
    (∀ X, ((DelayDurationModel.init []).load booster_demo).predict X =
      fitted_demo.predict X) ∧
    ((DelayDurationModel.init []).load booster_demo).is_fitted = true ∧
    ((DelayDurationModel.init []).load booster_demo).feature_names = none :=
  model_roundtrip_amended fitted_demo booster_demo [] rfl rfl

/-! ## Serving with unknown airports (claims C7 and C10) -/

/-- Concrete fitted encoders in which the airline `"DL"` carries the
nonzero fit-time code 1 (classes sort to `["9E", "DL"]`). -/
def encoders_demo : Encoders :=
  ⟨LabelEncoder.fit ["DL", "9E"],
   LabelEncoder.fit ["ATL", "ORD"],
   LabelEncoder.fit ["ATL", "ORD"]⟩

/-- A request with airports unknown to the encoders and to the airport
table, and a known airline. -/
def payload_unknown : Payload :=
  ⟨some ("XXX"), some ("YYY"), none, none, none, none, none, some ("DL")⟩

/-- C7 counterexample: for a request whose origin and destination are
unknown to the fitted encoders and to the airport table, the
origin/destination codes are 0 and the distance falls back to 1000, but
the airline field — one of the claimed three encoded categorical fields — is
its fit-time code 1 ≠ 0 when the requested airline was seen at fit
time. -/
theorem prepare_features_unknown_counterexample :
    "XXX" ∉ encoders_demo.origin.classes ∧
    "YYY" ∉ encoders_demo.dest.classes ∧
    AIRPORTS.lookup ("XXX") = none ∧
    AIRPORTS.lookup ("YYY") = none ∧
    (prepare_features (fun _ _ _ _ => 0) (some encoders_demo)
      payload_unknown).1.Origin_encoded = 0 ∧
    (prepare_features (fun _ _ _ _ => 0) (some encoders_demo)
      payload_unknown).1.Dest_encoded = 0 ∧
    (prepare_features (fun _ _ _ _ => 0) (some encoders_demo)
      payload_unknown).1.Reporting_Airline_encoded = 1 ∧
    (prepare_features (fun _ _ _ _ => 0) (some encoders_demo)
      payload_unknown).1.Reporting_Airline_encoded ≠ 0 := by
  decide

/-- C7 (amended): for every request whose origin and destination codes
are unknown to both the fitted encoders and the airport table, feature
preparation returns a complete feature vector — it is a total function,
never raising — with distance equal to the fixed fallback 1000 and the
origin and destination encoded fields equal to 0; the airline encoded
field equals the guarded fit-time code of the airline (0 when the airline is
itself unseen). -/
theorem prepare_features_unknown_airports
    (calc_distance : ℚ → ℚ → ℚ → ℚ → ℚ) (enc : Encoders) (data : Payload)
    (o d : String) (ho : data.origin = some o) (hd : data.destination = some d)
    (ho1 : o ∉ enc.origin.classes) (ho2 : AIRPORTS.lookup o = none)
    (hd1 : d ∉ enc.dest.classes) (hd2 : AIRPORTS.lookup d = none) :
    (prepare_features calc_distance (some enc) data).1.Distance = 1000 ∧
    (prepare_features calc_distance (some enc) data).1.Origin_encoded = 0 ∧
    (prepare_features calc_distance (some enc) data).1.Dest_encoded = 0 ∧
    (prepare_features calc_distance (some enc) data).1.Reporting_Airline_encoded =
      transform_safe enc.reporting_airline (data.airline.getD ("AA")) := by
  simp [prepare_features, lookupAirport, ho, hd, ho2, hd2,
    transform_opt_safe, transform_safe, LabelEncoder.transform, ho1, hd1]

/-- C7 witness: the amended statement at the concrete unknown-airport
request. -/
theorem prepare_features_unknown_airports_witness :
    (prepare_features (fun _ _ _ _ => 0) (some encoders_demo)
      payload_unknown).1.Distance = 1000 ∧
    (prepare_features (fun _ _ _ _ => 0) (some encoders_demo)
      payload_unknown).1.Origin_encoded = 0 ∧
    (prepare_features (fun _ _ _ _ => 0) (some encoders_demo)
      payload_unknown).1.Dest_encoded = 0 ∧
    (prepare_features (fun _ _ _ _ => 0) (some encoders_demo)
      payload_unknown).1.Reporting_Airline_encoded =
      transform_safe encoders_demo.reporting_airline
        (payload_unknown.airline.getD ("AA")) :=
  prepare_features_unknown_airports (fun _ _ _ _ => 0) encoders_demo
    payload_unknown ("XXX") ("YYY") rfl rfl (by decide) (by decide) (by decide)
    (by decide)

/-- Fitted encoders in which the default airline `"AA"` carries the
nonzero fit-time code 1 (classes sort to `["9E", "AA"]`). -/
def encoders_aa : Encoders :=
  ⟨LabelEncoder.fit ["AA", "9E"],
   LabelEncoder.fit ["ATL", "ORD"],
   LabelEncoder.fit ["ATL", "ORD"]⟩

/-- The empty request payload: every field absent. -/
def empty_payload : Payload :=
  ⟨none, none, none, none, none, none, none, none⟩

/-- C10 counterexample: with fitted encoders in which the default
airline `"AA"` has code 1, the empty payload yields an airline encoded
field of 1, not 0 — so not all encoded categorical codes of the complete
feature vector are 0. -/
theorem prepare_features_defaults_counterexample :
    (prepare_features (fun _ _ _ _ => 0) (some encoders_aa)
      empty_payload).1.Reporting_Airline_encoded = 1 ∧
    (prepare_features (fun _ _ _ _ => 0) (some encoders_aa)
      empty_payload).1.Reporting_Airline_encoded ≠ 0 := by
  decide

/-- C10 (amended): feature preparation substitutes the fixed defaults
for any absent field — month 6, day of month 15, day of week 3,
departure hour 14, arrival hour 17, airline `"AA"` — and an empty
payload yields a complete feature vector (no error) with distance 1000,
origin and destination codes 0, and the airline code equal to the
guarded fit-time code of the default airline `"AA"` (0 when no encoders
are loaded or `"AA"` is unseen). -/
theorem prepare_features_defaults (calc_distance : ℚ → ℚ → ℚ → ℚ → ℚ)
    (label_encoders : Option Encoders) (data : Payload) :
    (data.month = none →
      (prepare_features calc_distance label_encoders data).1.Month = 6) ∧
    (data.day = none →
      (prepare_features calc_distance label_encoders data).1.DayofMonth = 15) ∧
    (data.dayOfWeek = none →
      (prepare_features calc_distance label_encoders data).1.DayOfWeek = 3) ∧
    (data.depHour = none →
      (prepare_features calc_distance label_encoders data).1.dep_hour = 14) ∧
    (data.arrHour = none →
      (prepare_features calc_distance label_encoders data).1.arr_hour = 17) ∧
    (data.airline = none →
      (prepare_features calc_distance label_encoders data).2.airline = "AA") ∧
    (data.origin = none → data.destination = none →
      (prepare_features calc_distance label_encoders data).1.Distance = 1000 ∧
      (prepare_features calc_distance label_encoders data).1.Origin_encoded = 0 ∧
      (prepare_features calc_distance label_encoders data).1.Dest_encoded = 0 ∧
      (prepare_features calc_distance label_encoders data).1.Reporting_Airline_encoded =
        (match label_encoders with
         | some enc => transform_safe enc.reporting_airline (data.airline.getD ("AA"))
         | none => 0)) := by
  refine ⟨?_, ?_, ?_, ?_, ?_, ?_, ?_⟩
  · intro h; simp [prepare_features, h]
  · intro h; simp [prepare_features, h]
  · intro h; simp [prepare_features, h]
  · intro h; simp [prepare_features, h]
  · intro h; simp [prepare_features, h]
  · intro h; simp [prepare_features, h]
  · intro h1 h2
    constructor
    · simp [prepare_features, h1, h2, lookupAirport]
    constructor
    · cases label_encoders <;>
        simp [prepare_features, h1, h2, transform_opt_safe]
    constructor
    · cases label_encoders <;>
        simp [prepare_features, h1, h2, transform_opt_safe]
    · cases label_encoders <;> simp [prepare_features]

/-- C10 witness: the empty payload with no encoders loaded takes every
default. -/
theorem prepare_features_defaults_witness :
    ((prepare_features (fun _ _ _ _ => 0) none empty_payload).1.Month = 6 ∧
      (prepare_features (fun _ _ _ _ => 0) none empty_payload).1.DayofMonth = 15 ∧
      (prepare_features (fun _ _ _ _ => 0) none empty_payload).1.DayOfWeek = 3 ∧
      (prepare_features (fun _ _ _ _ => 0) none empty_payload).1.dep_hour = 14 ∧
      (prepare_features (fun _ _ _ _ => 0) none empty_payload).1.arr_hour = 17 ∧
      (prepare_features (fun _ _ _ _ => 0) none empty_payload).2.airline = "AA") ∧
    (prepare_features (fun _ _ _ _ => 0) none empty_payload).1.Distance = 1000 ∧
    (prepare_features (fun _ _ _ _ => 0) none empty_payload).1.Origin_encoded = 0 ∧
    (prepare_features (fun _ _ _ _ => 0) none empty_payload).1.Dest_encoded = 0 :=
  have h := prepare_features_defaults (fun _ _ _ _ => 0) none empty_payload
  ⟨⟨h.1 rfl, h.2.1 rfl, h.2.2.1 rfl, h.2.2.2.1 rfl, h.2.2.2.2.1 rfl,
    h.2.2.2.2.2.1 rfl⟩,
   (h.2.2.2.2.2.2 rfl rfl).1, (h.2.2.2.2.2.2 rfl rfl).2.1,
   (h.2.2.2.2.2.2 rfl rfl).2.2.1⟩

end FlightDelay
